import Mathlib

/-!
# Verification of the reading-log application's core logic

Shallow embedding of `src/reading_log_final.py` (a personal reading-log
manager). The embedded pieces are:

* `validate_and_format_isbn` (lines 374-430): ISBN-10/13 validation and
  canonicalisation;
* `clean_author_name` (lines 363-372): author-string cleanup via two
  `re.sub` passes and a final strip;
* `generate_reading_report` (525-632) and `generate_monthly_summary`
  (634-668): period filtering and aggregation over the book table;
* `restore_from_backup` (492-522): backup restore over a file-system model;
* `add_book_to_db` (768-796): the insert of a new book row.

Machine integers are `Nat`; Python exceptions are modelled with
`Except`/`Option`; the two regular expressions are compiled by hand into
scanning functions with the exact leftmost, non-overlapping `re.sub`
semantics (greedy `\s*`, lazy `.*?`, `.` not matching a newline).
-/

namespace ReadingLog

/-! ## ISBN normalizer: `validate_and_format_isbn` (lines 374-430) -/

/-- Python `isbn = re.sub(r'[^0-9X]', '', isbn.upper())` (line 377): keep the
decimal digits and the letter X (upper-casing a lowercase x); drop every
other character.  No character other than `x` upper-cases into `[0-9X]`. -/
def cleanChar (c : Char) : Option Char :=
  if c.isDigit then some c
  else if c = 'X' ∨ c = 'x' then some 'X'
  else none

/-- See `cleanChar`: the character filter applied across the input. -/
def cleanIsbn (s : String) : String :=
  String.mk (s.data.filterMap cleanChar)

/-- Python `int(c)` on a single character of the cleaned alphabet `[0-9X]`:
its digit value, or `none` for the `ValueError` raised on `'X'`. -/
def digitVal? (c : Char) : Option Nat :=
  if c.isDigit then some (c.toNat - 48) else none

/-- The digit value of a decimal-digit character. -/
def dval (c : Char) : Nat := c.toNat - 48

/-- The checksum loop of lines 384-387 / 401-404: positions are 0-indexed
starting at `i`; weight 1 at even positions, 3 at odd ones; `none` models the
`ValueError` raised by `int(digit)` on a non-digit character. -/
def isbnChecksumAux : Nat → List Char → Option Nat
  | _, [] => some 0
  | i, c :: cs => do
      let d ← digitVal? c
      let rest ← isbnChecksumAux (i + 1) cs
      pure ((if i % 2 = 0 then d else 3 * d) + rest)

/-- The weighted checksum on digit values, as the spec states it: weight 1 at
even 0-indexed positions (counting from `i`), weight 3 at odd ones. -/
def weightedChecksum : Nat → List Nat → Nat
  | _, [] => 0
  | i, d :: ds => (if i % 2 = 0 then d else 3 * d) + weightedChecksum (i + 1) ds

/-- The checksum-mismatch message of line 418:
`f'ISBN-13 체크섬 오류 (예상: {expected_check}, 실제: {actual_check})'`. -/
def checksumErrMsg (e a : Nat) : String :=
  "ISBN-13 체크섬 오류 (예상: " ++ toString e ++ ", 실제: " ++ toString a ++ ")"

/-- The structured outcome dict of `validate_and_format_isbn`: the `'valid'`
flag, the `'isbn13'` key (absent on failure) and the `'message'` text. -/
structure IsbnResult where
  valid : Bool
  isbn13 : Option String
  message : String
  deriving DecidableEq, Repr

instance {ε α : Type} [DecidableEq ε] [DecidableEq α] : DecidableEq (Except ε α)
  | Except.ok a, Except.ok b =>
      if h : a = b then isTrue (by rw [h]) else isFalse (by intro hh; cases hh; exact h rfl)
  | Except.ok _, Except.error _ => isFalse (by intro h; cases h)
  | Except.error _, Except.ok _ => isFalse (by intro h; cases h)
  | Except.error e, Except.error f =>
      if h : e = f then isTrue (by rw [h]) else isFalse (by intro hh; cases hh; exact h rfl)

/-- `validate_and_format_isbn` (lines 374-430).  `Except.error ()` models an
uncaught Python exception: the ISBN-10 branch (379-396) runs `int(digit)`
with no surrounding `try`, so a non-digit among the first nine cleaned
characters raises `ValueError` out of the function; the ISBN-13 branch
(398-424) wraps its loop and `int(isbn[-1])` in `try/except` and turns the
same error into a structured failure. -/
def validate_and_format_isbn (input : String) : Except Unit IsbnResult :=
  let isbn := cleanIsbn input
  if isbn.length = 10 then
    let isbn12 := "978" ++ String.mk isbn.data.dropLast
    (isbnChecksumAux 0 isbn12.data).elim (Except.error ()) fun checksum =>
      let check_digit := (10 - checksum % 10) % 10
      let isbn13 := isbn12 ++ toString check_digit
      Except.ok { valid := true, isbn13 := some isbn13,
                  message := "ISBN-10을 13자리로 변환: " ++ isbn13 }
  else if isbn.length = 13 then
    ((isbnChecksumAux 0 isbn.data.dropLast).bind
        (fun cs => (digitVal? (isbn.data.getLast?.getD 'A')).map fun a => (cs, a))).elim
      (Except.ok { valid := false, isbn13 := none,
                   message := "ISBN-13 형식이 올바르지 않습니다" })
      fun p =>
        let expected := (10 - p.1 % 10) % 10
        if expected = p.2 then
          Except.ok { valid := true, isbn13 := some isbn,
                      message := "ISBN-13이 유효합니다" }
        else
          Except.ok { valid := false, isbn13 := none,
                      message := checksumErrMsg expected p.2 }
  else
    Except.ok { valid := false, isbn13 := none,
                message := "ISBN은 10자리 또는 13자리여야 합니다 (입력: "
                  ++ toString isbn.length ++ "자리)" }

/-! ## Author cleanup: `clean_author_name` (lines 363-372)

The two `re.sub` passes are compiled into scanning functions.  `re.sub`
replaces the leftmost, non-overlapping matches scanning left to right; a
position with no match emits its character and moves on by one.  Each scanner
carries a fuel argument so the recursion is structural; every step consumes
at least one character, so fuel equal to the list length is always enough. -/

/-- Python `\s` on a `str` (`re.UNICODE`): the whitespace characters. -/
def pyWsChars : List Char :=
  [' ', '\t', '\n', '\r', '\x0b', '\x0c', '\x1c', '\x1d', '\x1e', '\x1f',
   '\x85', '\xa0', ' ', ' ', ' ', ' ', ' ', ' ',
   ' ', ' ', ' ', ' ', ' ', ' ', ' ',
   ' ', ' ', ' ', '　']

/-- Whether a character matches `\s`. -/
def pyWs (c : Char) : Bool := pyWsChars.contains c

/-- The lazy `.*?\]` step of `r'\s*\[.*?\]\s*'`: scan for the first `]`;
`.` does not match a newline, so a newline before any `]` kills the match.
Returns the suffix after the `]`. -/
def findRB : List Char → Option (List Char)
  | [] => none
  | c :: cs => if c = ']' then some cs else if c = '\n' then none else findRB cs

/-- One `re.sub(r'\s*\[.*?\]\s*', '', ·)` pass (line 369).  At each position:
`\s*` greedily takes the whitespace run (no shorter take can be followed by
`[`, since a whitespace character is never `[`); then `[`, the lazy body up
to the first `]`, and the trailing greedy `\s*`.  On a match, scanning
resumes after it; otherwise the character is kept and the scan advances. -/
def subBracketAux : Nat → List Char → List Char
  | _, [] => []
  | 0, l => l
  | fuel + 1, c :: cs =>
      match (c :: cs).dropWhile pyWs with
      | '[' :: after =>
          match findRB after with
          | some rem => subBracketAux fuel (rem.dropWhile pyWs)
          | none => c :: subBracketAux fuel cs
      | _ => c :: subBracketAux fuel cs

/-- `re.sub(r'\s*\[.*?\]\s*', '', ·)` with enough fuel. -/
def subBracket (l : List Char) : List Char := subBracketAux l.length l

/-- The role-word alternation `(지은이|옮긴이|글|저|역|편저|감수)` of line 370,
in Python's left-to-right alternation order. -/
def roleTokens : List (List Char) :=
  ["지은이".data, "옮긴이".data, "글".data, "저".data, "역".data,
   "편저".data, "감수".data]

/-- Whether `t` occurs in `l` as a contiguous substring (used to state when
the role pass can fire at all). -/
def containsTok (t : List Char) : List Char → Bool
  | [] => t.isEmpty
  | l@(_ :: cs) => t.isPrefixOf l || containsTok t cs

/-- Try the alternation at the head of `l`: first token that is a prefix
wins; returns the suffix after it. -/
def tryTokens : List (List Char) → List Char → Option (List Char)
  | [], _ => none
  | t :: ts, l => if t.isPrefixOf l then some (l.drop t.length) else tryTokens ts l

/-- One `re.sub(r'\s*(지은이|...|감수)\s*', '', ·)` pass (line 370), same
scanning scheme as `subBracketAux`: greedy `\s*`, the alternation, greedy
trailing `\s*`.  No word-boundary anchors: a token matches anywhere, even
inside a longer word. -/
def subRoleAux : Nat → List Char → List Char
  | _, [] => []
  | 0, l => l
  | fuel + 1, c :: cs =>
      match tryTokens roleTokens ((c :: cs).dropWhile pyWs) with
      | some rem => subRoleAux fuel (rem.dropWhile pyWs)
      | none => c :: subRoleAux fuel cs

/-- `re.sub(r'\s*(지은이|...|감수)\s*', '', ·)` with enough fuel. -/
def subRole (l : List Char) : List Char := subRoleAux l.length l

/-- The strip set of `str.strip(' ,;')` (line 371). -/
def stripSet (c : Char) : Bool := c = ' ' ∨ c = ',' ∨ c = ';'

/-- `str.strip(' ,;')`: drop the characters of the set from both ends. -/
def stripChars (l : List Char) : List Char :=
  ((l.dropWhile stripSet).reverse.dropWhile stripSet).reverse

/-- `clean_author_name` (lines 363-372).  `pd.isna` is `False` on every
string, so the guard of line 365 only maps the empty string to itself. -/
def clean_author_name (s : String) : String :=
  if s = "" then ""
  else String.mk (stripChars (subRole (subBracket s.data)))

/-! ## Data model: one row of the `books` table (schema at lines 688-707) -/

/-- A row of the `books` table.  `INTEGER` columns are `Nat`, `TEXT` columns
`String`; the two nullable wiki columns are `Option String`. -/
structure BookRow where
  id : Nat
  isbn : String
  title : String
  author : String
  publisher : String
  publication_year : String
  subject : String
  loan_count : Nat
  cover_url : String
  rating : Nat
  status : String
  memo : String
  tags : String
  pages : Nat
  added_date : String
  updated_date : String
  wiki_links : Option String
  last_wiki_search : Option String
  deriving DecidableEq, Repr

/-! ## Aggregation helpers

`collections.Counter` keeps keys in first-insertion order, and both
`Counter.most_common(n)` and the `value_counts` model sort by count
descending with ties kept in that order (a stable descending sort). -/

/-- Add one occurrence of `k` to a count list, keeping first-insertion
order of the keys. -/
def bump (k : String) : List (String × Nat) → List (String × Nat)
  | [] => [(k, 1)]
  | (k2, n) :: rest => if k2 = k then (k2, n + 1) :: rest else (k2, n) :: bump k rest

/-- `collections.Counter(l)` as a key/count list in first-occurrence order. -/
def counterOf (l : List String) : List (String × Nat) :=
  l.foldl (fun acc k => bump k acc) []

/-- Stable insertion for a descending sort by `key`: an element goes before
the first strictly smaller key, after equal ones that came earlier. -/
def insDescBy (key : α → Nat) (x : α) : List α → List α
  | [] => [x]
  | y :: ys => if key y ≤ key x then x :: y :: ys else y :: insDescBy key x ys

/-- Stable descending sort by `key`. -/
def sortDescBy (key : α → Nat) : List α → List α
  | [] => []
  | x :: xs => insDescBy key x (sortDescBy key xs)

/-- `Counter.most_common(n)`: counts sorted descending (stable), first `n`. -/
def mostCommon (n : Nat) (l : List String) : List (String × Nat) :=
  (sortDescBy (fun p => p.2) (counterOf l)).take n

/-- The tag collection loop (lines 603-606 / 660-663): for every row whose
`tags` cell is non-empty, split on `','` and append, in row order. -/
def collectTags (df : List BookRow) : List String :=
  df.foldl (fun acc b => if b.tags ≠ "" then acc ++ b.tags.splitOn "," else acc) []

/-- The mean of a list of naturals as an exact rational (`Series.mean`). -/
def ratMean (xs : List Nat) : Rat := (xs.sum : Rat) / (xs.length : Rat)

/-! ## The period filter (lines 528-532 / 636-640)

`start_date = f"{year}-{month:02d}-01"`, `end_date = f"{year}-{month:02d}-31"`
and the comparison `start_date <= added_date <= end_date` is Python string
comparison, i.e. lexicographic on code points. -/

/-- `f"{month:02d}"`: zero-padded two-digit rendering. -/
def pad2 (n : Nat) : String := if n < 10 then "0" ++ toString n else toString n

/-- `f"{year}-{month:02d}-01"`. -/
def startDate (year month : Nat) : String := toString year ++ "-" ++ pad2 month ++ "-01"

/-- `f"{year}-{month:02d}-31"`. -/
def endDate (year month : Nat) : String := toString year ++ "-" ++ pad2 month ++ "-31"

/-- Python string `<=`: lexicographic comparison by code point. -/
def lexLe : List Char → List Char → Bool
  | [], _ => true
  | _ :: _, [] => false
  | a :: as, b :: bs => if a = b then lexLe as bs else decide (a < b)

/-- Python `s <= t` on strings. -/
def strLe (a b : String) : Bool := lexLe a.data b.data

/-- The filter predicate `(added_date >= start_date) & (added_date <= end_date)`. -/
def inPeriod (year month : Nat) (added_date : String) : Bool :=
  strLe (startDate year month) added_date && strLe added_date (endDate year month)

/-! ## `generate_monthly_summary` (lines 634-668) -/

/-- The summary dict built at lines 647-656 (with `top_tags` updated at
lines 658-666).  `books` keeps the rows themselves in place of
`to_dict('records')`. -/
structure MonthlySummary where
  year : Nat
  month : Nat
  total_added : Nat
  completed : Nat
  pages_read : Nat
  avg_rating : Rat
  top_tags : List (String × Nat)
  books : List BookRow
  deriving DecidableEq, Repr

/-- `generate_monthly_summary` (lines 634-668). -/
def generate_monthly_summary (df : List BookRow) (year month : Nat) : MonthlySummary :=
  let month_df := df.filter fun b => inPeriod year month b.added_date
  let completed_df := df.filter fun b =>
    b.status = "읽음" && inPeriod year month b.added_date
  let all_tags := collectTags month_df
  { year := year
    month := month
    total_added := month_df.length
    completed := completed_df.length
    pages_read := if completed_df.length > 0 then (completed_df.map (·.pages)).sum else 0
    avg_rating := if completed_df.length > 0 then ratMean (completed_df.map (·.rating)) else 0
    top_tags := if all_tags ≠ [] then mostCommon 3 all_tags else []
    books := month_df }

/-! ## `generate_reading_report` (lines 525-632)

The statistics and the section structure are embedded exactly; two floating
point renderings are modelled on exact rationals: `f"{x:.1f}"` as rounding
to tenths (ties to even) and `f"{n:,}"` as comma grouping.  The
`datetime.now()` stamp of the footer (line 628) is passed in as `now_str`. -/

/-- Round a non-negative rational to the nearest integer, ties to even
(model of the float rounding inside `f"{x:.1f}"`). -/
def roundHalfEven (x : Rat) : Int :=
  let f := x.floor
  if x - (f : Rat) > 1 / 2 then f + 1
  else if x - (f : Rat) < 1 / 2 then f
  else if f % 2 = 0 then f else f + 1

/-- `f"{x:.1f}"` for a non-negative rational. -/
def fmtRat1 (x : Rat) : String :=
  let n := (roundHalfEven (x * 10)).toNat
  toString (n / 10) ++ "." ++ toString (n % 10)

/-- Comma grouping of the reversed digit list, three at a time. -/
def commaRev : List Char → List Char
  | [] => []
  | [a] => [a]
  | [a, b] => [a, b]
  | [a, b, c] => [a, b, c]
  | a :: b :: c :: rest => a :: b :: c :: ',' :: commaRev rest

/-- `f"{n:,}"`: decimal rendering with thousands separators. -/
def fmtComma (n : Nat) : String :=
  String.mk ((commaRev (toString n).data.reverse).reverse)

/-- `"⭐" * n`. -/
def starsOf (n : Nat) : String := String.mk (List.replicate n '⭐')

/-- `str.strip()` with no argument: strip whitespace from both ends. -/
def stripWs (s : String) : String :=
  String.mk (((s.data.dropWhile pyWs).reverse.dropWhile pyWs).reverse)

/-- The period text of lines 529-536: `f"{year}년 {month}월"` when filtering
by month (both arguments present and non-zero, Python truthiness), else
`"전체 기간"`. -/
def reportPeriodText (period : String) (year month : Option Nat) : String :=
  if period = "month" ∧ year.getD 0 ≠ 0 ∧ month.getD 0 ≠ 0 then
    toString (year.getD 0) ++ "년 " ++ toString (month.getD 0) ++ "월"
  else "전체 기간"

/-- One completed-book entry of the loop at lines 571-579. -/
def completedEntry (b : BookRow) : String :=
  "### 📖 " ++ b.title ++ "\n"
    ++ "- **저자**: " ++ b.author ++ "\n"
    ++ (if b.rating > 0 then "- **평점**: " ++ starsOf b.rating ++ "\n" else "")
    ++ (if b.memo ≠ "" then "- **메모**: " ++ b.memo ++ "\n" else "")
    ++ "\n"

/-- One line of the subject/author frequency loops (lines 586-588, 596-598):
skipped for an empty value or the placeholder `'정보 없음'`. -/
def freqLine (p : String × Nat) : String :=
  if p.1 ≠ "" ∧ p.1 ≠ "정보 없음" then
    "- **" ++ p.1 ++ "**: " ++ toString p.2 ++ "권\n"
  else ""

/-- One line of the tag loop at lines 611-612. -/
def tagLine (p : String × Nat) : String :=
  "- **#" ++ stripWs p.1 ++ "**: " ++ toString p.2 ++ "권\n"

/-- One entry of the best-books loop at lines 619-623 (`idx` counts from 1). -/
def bestEntry (p : Nat × BookRow) : String :=
  "**" ++ toString (p.1 + 1) ++ ". " ++ p.2.title ++ "** - " ++ p.2.author ++ "\n"
    ++ (if p.2.memo ≠ "" then "   > " ++ p.2.memo ++ "\n" else "")
    ++ "\n"

/-- Concatenation of the rendered entries of a section. -/
def catMap (f : α → String) (l : List α) : String :=
  l.foldl (fun acc x => acc ++ f x) ""

/-- `generate_reading_report` (lines 525-632). -/
def generate_reading_report (df : List BookRow) (period : String)
    (year month : Option Nat) (now_str : String) : String :=
  let period_df :=
    if period = "month" ∧ year.getD 0 ≠ 0 ∧ month.getD 0 ≠ 0 then
      df.filter fun b => inPeriod (year.getD 0) (month.getD 0) b.added_date
    else df
  let period_text := reportPeriodText period year month
  if period_df.length = 0 then
    "# 📚 " ++ period_text ++ " 독서 보고서\n\n해당 기간에 기록된 책이 없습니다."
  else
    let total_books := period_df.length
    let completed_books := (period_df.filter fun b => b.status = "읽음").length
    let reading_books := (period_df.filter fun b => b.status = "읽는 중").length
    let want_books := (period_df.filter fun b => b.status = "읽고 싶음").length
    let avg_rating : Rat :=
      if period_df.any fun b => b.rating > 0 then
        ratMean ((period_df.filter fun b => b.rating > 0).map (·.rating))
      else 0
    let total_pages := (period_df.map (·.pages)).sum
    let header :=
      "# 📚 " ++ period_text ++ " 독서 보고서\n\n## 📊 독서 통계 요약\n"
        ++ "- **총 책 수**: " ++ toString total_books ++ "권\n"
        ++ "- **완독**: " ++ toString completed_books ++ "권\n"
        ++ "- **읽는 중**: " ++ toString reading_books ++ "권  \n"
        ++ "- **읽고 싶음**: " ++ toString want_books ++ "권\n"
        ++ "- **평균 평점**: ⭐ " ++ fmtRat1 avg_rating ++ "\n"
        ++ "- **총 페이지**: " ++ fmtComma total_pages ++ "페이지\n\n"
    let completedSection :=
      if completed_books > 0 then
        "## ✅ 완독한 책들\n\n"
          ++ catMap completedEntry
              (sortDescBy (·.rating) (period_df.filter fun b => b.status = "읽음"))
      else ""
    let subjects := (sortDescBy (fun p => p.2) (counterOf (period_df.map (·.subject)))).take 5
    let subjectSection :=
      if subjects.length > 0 then "## 🎯 주요 관심 분야\n\n" ++ catMap freqLine subjects ++ "\n"
      else ""
    let authors := (sortDescBy (fun p => p.2) (counterOf (period_df.map (·.author)))).take 3
    let authorSection :=
      if authors.length > 0 then "## 👤 자주 읽은 저자\n\n" ++ catMap freqLine authors ++ "\n"
      else ""
    let all_tags := collectTags period_df
    let tagSection :=
      if all_tags ≠ [] then "## 🏷️ 주요 태그\n\n" ++ catMap tagLine (mostCommon 5 all_tags) ++ "\n"
      else ""
    let high_rated := (sortDescBy (·.rating) (period_df.filter fun b => b.rating ≥ 4)).take 3
    let bestSection :=
      if high_rated.length > 0 then
        "## 🌟 이번 기간 베스트 도서\n\n" ++ catMap bestEntry high_rated.enum
      else ""
    header ++ completedSection ++ subjectSection ++ authorSection ++ tagSection
      ++ bestSection
      ++ "\n---\n*이 보고서는 " ++ now_str ++ "에 생성되었습니다.*  \n*📚 독서기록장 v7.0으로 작성*\n"

/-! ## `restore_from_backup` (lines 492-522)

The working directory is a finite map from file name to byte content; the
sqlite engine is the black-box collaborator, abstracted by `tablesOf`, the
list of names that `SELECT name FROM sqlite_master WHERE type='table'` would
report for a given byte content; `ts` is the `datetime.now().strftime(...)`
stamp of line 496. -/

/-- File contents. -/
def Bytes := List Nat
  deriving DecidableEq

/-- A working directory: file name to content. -/
def FS := List (String × Bytes)
  deriving DecidableEq

/-- Read a file. -/
def fsRead (fs : FS) (k : String) : Option Bytes :=
  match fs with
  | [] => none
  | (k2, v) :: rest => if k2 = k then some v else fsRead rest k

/-- Delete a file (no effect when absent, like the guarded removes here). -/
def fsRemove (fs : FS) (k : String) : FS :=
  match fs with
  | [] => []
  | (k2, v) :: rest => if k2 = k then fsRemove rest k else (k2, v) :: fsRemove rest k

/-- Create or overwrite a file. -/
def fsWrite (fs : FS) (k : String) (v : Bytes) : FS :=
  (k, v) :: fsRemove fs k

/-- `os.rename src dst` (src known to exist on the path that uses it). -/
def fsRename (fs : FS) (src dst : String) : FS :=
  (fsRead fs src).elim fs fun v => fsWrite (fsRemove fs src) dst v

/-- `restore_from_backup` (lines 492-522), returning the `bool` result and the
directory after the call.  Steps: `shutil.copy2` of the live store to
`reading_log_before_restore_{ts}.db` (a missing live store raises there and
lands in the `except` block, which removes any temp file); write the upload
to `reading_log_temp.db`; list the tables of the upload; without a `books`
table remove the temp file and fail; otherwise remove the live store and
rename the temp file onto it. -/
def restore_from_backup (tablesOf : Bytes → List String) (ts : String)
    (upload : Bytes) (fs : FS) : Bool × FS :=
  (fsRead fs "reading_log.db").elim (false, fsRemove fs "reading_log_temp.db") fun live =>
    let fs1 := fsWrite fs ("reading_log_before_restore_" ++ ts ++ ".db") live
    let fs2 := fsWrite fs1 "reading_log_temp.db" upload
    if (tablesOf upload).contains "books" then
      let fs3 := fsRemove fs2 "reading_log.db"
      (true, fsRename fs3 "reading_log_temp.db" "reading_log.db")
    else
      (false, fsRemove fs2 "reading_log_temp.db")

/-! ## `add_book_to_db` (lines 768-796) -/

/-- The `book_data` dict as the insert reads it: keys accessed with `[]` are
required, keys accessed with `.get(key, default)` are optional. -/
structure BookData where
  isbn : String
  title : String
  author : String
  publisher : String
  publication_year : Option String
  subject : Option String
  loan_count : Option Nat
  cover_url : Option String
  rating : Nat
  status : String
  memo : String
  tags : Option String
  pages : Option Nat
  added_date : String
  deriving DecidableEq, Repr

/-- The row created by the `INSERT` of lines 772-791: `id` is the
autoincrement key the store assigns; both `added_date` and `updated_date`
columns receive `book_data['added_date']`; the wiki columns are not in the
column list, so they are NULL. -/
def add_book_to_db (bd : BookData) (newId : Nat) : BookRow :=
  { id := newId
    isbn := bd.isbn
    title := bd.title
    author := bd.author
    publisher := bd.publisher
    publication_year := bd.publication_year.getD ""
    subject := bd.subject.getD ""
    loan_count := bd.loan_count.getD 0
    cover_url := bd.cover_url.getD ""
    rating := bd.rating
    status := bd.status
    memo := bd.memo
    tags := bd.tags.getD ""
    pages := bd.pages.getD 0
    added_date := bd.added_date
    updated_date := bd.added_date
    wiki_links := none
    last_wiki_search := none }

/-! ## Lemmas about the ISBN normalizer -/

/-- A string of decimal digits passes the cleaning filter unchanged. -/
theorem filterMap_cleanChar_digits (l : List Char) (h : ∀ c ∈ l, c.isDigit = true) :
    l.filterMap cleanChar = l := by
  induction l with
  | nil => rfl
  | cons c cs ih =>
      have hc : c.isDigit = true := h c (by simp)
      have hcs : ∀ x ∈ cs, x.isDigit = true := fun x hx => h x (by simp [hx])
      simp [List.filterMap_cons, cleanChar, hc, ih hcs]

/-- `cleanIsbn` is the identity on strings of decimal digits. -/
theorem cleanIsbn_digits (l : List Char) (h : ∀ c ∈ l, c.isDigit = true) :
    (cleanIsbn (String.mk l)).data = l := by
  simpa [cleanIsbn] using filterMap_cleanChar_digits l h

/-- On digit characters the fallible conversion succeeds with the digit value. -/
theorem digitVal?_digit (c : Char) (h : c.isDigit = true) : digitVal? c = some (dval c) := by
  simp [digitVal?, dval, h]

/-- On a list of digit characters the checksum loop of the code never raises
and computes exactly the weighted checksum of the digit values. -/
theorem checksum_digits (l : List Char) :
    ∀ i : Nat, (∀ c ∈ l, c.isDigit = true) →
      isbnChecksumAux i l = some (weightedChecksum i (l.map dval)) := by
  induction l with
  | nil => intro i _; rfl
  | cons c cs ih =>
      intro i h
      have hc : c.isDigit = true := h c (by simp)
      have hcs : ∀ x ∈ cs, x.isDigit = true := fun x hx => h x (by simp [hx])
      simp [isbnChecksumAux, weightedChecksum, digitVal?_digit c hc, ih (i + 1) hcs,
        Option.bind]

/-- Decimal rendering of a single digit: one character, and a digit. -/
theorem toString_digit (n : Nat) (h : n < 10) :
    (toString n).data = [Char.ofNat (48 + n)] ∧ (Char.ofNat (48 + n)).isDigit = true := by
  interval_cases n <;> exact ⟨by decide, by decide⟩

/-- String concatenation concatenates the character lists. -/
theorem sdata_append (a b : String) : (a ++ b).data = a.data ++ b.data := by
  cases a; cases b; rfl

/-- The check digit formula always produces a digit. -/
theorem check_digit_lt (n : Nat) : (10 - n % 10) % 10 < 10 :=
  Nat.mod_lt _ (by omega)

/-! ## Claim C1 -/

/-- C1 counterexample: the input `"X123456789"` cleans to itself, a
10-character string, yet `validate_and_format_isbn` does not return a
structured outcome: the `int(digit)` loop of the ISBN-10 branch raises an
uncaught `ValueError` on the `'X'` (modelled as `Except.error ()`), refuting
both "never raises" and "every 10-character cleaned input yields success". -/
theorem C1_counterexample :
    (cleanIsbn "X123456789").data.length = 10 ∧
      validate_and_format_isbn "X123456789" = Except.error () :=
  ⟨by decide, by decide⟩

/-- C1 (amended): for every input string whose cleaned form, when it has
length exactly 10, carries only decimal digits among its first 9 characters,
`validate_and_format_isbn` returns a structured outcome (it never raises);
and when the cleaned length is exactly 10 the outcome is success with a
13-character all-digit identifier starting with `"978"`. -/
theorem C1_amended (s : String)
    (h : (cleanIsbn s).data.length = 10 →
      ∀ c ∈ (cleanIsbn s).data.take 9, c.isDigit = true) :
    ∃ r, validate_and_format_isbn s = Except.ok r ∧
      ((cleanIsbn s).data.length = 10 →
        r.valid = true ∧ ∃ t, r.isbn13 = some t ∧ t.data.length = 13 ∧
          (∀ c ∈ t.data, c.isDigit = true) ∧ t.data.take 3 = ['9', '7', '8']) := by
  by_cases h10 : (cleanIsbn s).data.length = 10
  · have hdig9 := h h10
    have hlen10 : (cleanIsbn s).length = 10 := h10
    have hdl : (cleanIsbn s).data.dropLast = (cleanIsbn s).data.take 9 := by
      rw [List.dropLast_eq_take, h10]
    have h12 : ("978" ++ String.mk ((cleanIsbn s).data.take 9)).data
        = '9' :: '7' :: '8' :: (cleanIsbn s).data.take 9 := by
      rw [sdata_append]; rfl
    have hsub : ∀ c ∈ '9' :: '7' :: '8' :: (cleanIsbn s).data.take 9, c.isDigit = true := by
      intro c hc
      rcases List.mem_cons.mp hc with rfl | hc
      · decide
      rcases List.mem_cons.mp hc with rfl | hc
      · decide
      rcases List.mem_cons.mp hc with rfl | hc
      · decide
      exact hdig9 c hc
    obtain ⟨hts, htd⟩ := toString_digit
      ((10 - weightedChecksum 0
        (('9' :: '7' :: '8' :: (cleanIsbn s).data.take 9).map dval) % 10) % 10)
      (check_digit_lt _)
    refine ⟨{ valid := true,
              isbn13 := some (("978" ++ String.mk ((cleanIsbn s).data.take 9))
                ++ toString ((10 - weightedChecksum 0
                  (('9' :: '7' :: '8' :: (cleanIsbn s).data.take 9).map dval) % 10) % 10)),
              message := "ISBN-10을 13자리로 변환: "
                ++ (("978" ++ String.mk ((cleanIsbn s).data.take 9))
                ++ toString ((10 - weightedChecksum 0
                  (('9' :: '7' :: '8' :: (cleanIsbn s).data.take 9).map dval) % 10) % 10)) },
            ?_, fun _ => ?_⟩
    · simp only [validate_and_format_isbn]
      rw [if_pos hlen10, hdl, h12, checksum_digits _ 0 hsub]
      simp only [Option.elim_some]
    · refine ⟨rfl, _, rfl, ?_, ?_, ?_⟩
      · rw [sdata_append, h12, hts]
        simp [List.length_take, h10]
      · intro c hc
        rw [sdata_append, h12, hts] at hc
        rcases List.mem_append.mp hc with hc | hc
        · exact hsub c hc
        · simp only [List.mem_singleton] at hc
          subst hc; exact htd
      · rw [sdata_append, h12]
        simp [List.take]
  · by_cases h13 : (cleanIsbn s).length = 13
    · have hne10 : ¬ (cleanIsbn s).length = 10 := h10
      have hok : ∃ r, validate_and_format_isbn s = Except.ok r := by
        simp only [validate_and_format_isbn]
        rw [if_neg hne10, if_pos h13]
        cases hopt : (isbnChecksumAux 0 (cleanIsbn s).data.dropLast).bind
            (fun cs => (digitVal? ((cleanIsbn s).data.getLast?.getD 'A')).map
              fun a => (cs, a)) with
        | none => exact ⟨_, rfl⟩
        | some p =>
            simp only [Option.elim_some]
            by_cases hcond : (10 - p.1 % 10) % 10 = p.2
            · rw [if_pos hcond]; exact ⟨_, rfl⟩
            · rw [if_neg hcond]; exact ⟨_, rfl⟩
      obtain ⟨r, hr⟩ := hok
      exact ⟨r, hr, fun hh => absurd hh h10⟩
    · have hs10 : ¬ (cleanIsbn s).length = 10 := h10
      refine ⟨{ valid := false, isbn13 := none,
                message := "ISBN은 10자리 또는 13자리여야 합니다 (입력: "
                  ++ toString (cleanIsbn s).length ++ "자리)" },
              ?_, fun hh => absurd hh h10⟩
      simp only [validate_and_format_isbn]
      rw [if_neg hs10, if_neg h13]

/-- C1 witness: the hyphenated legacy identifier `"89-83711-54-0"` cleans to
10 digits, so the amended claim applies to it. -/
theorem C1_witness :
    ∃ r, validate_and_format_isbn "89-83711-54-0" = Except.ok r ∧
      ((cleanIsbn "89-83711-54-0").data.length = 10 →
        r.valid = true ∧ ∃ t, r.isbn13 = some t ∧ t.data.length = 13 ∧
          (∀ c ∈ t.data, c.isDigit = true) ∧ t.data.take 3 = ['9', '7', '8']) :=
  C1_amended "89-83711-54-0" (fun _ => by decide)

/-! ## Claim C2 -/

/-- C2: for every input whose cleaned form is a 13-character decimal string
whose 13th digit equals the weighted checksum check digit (weights
alternating 1,3 starting at 1 over the first 12 digits, check digit
`(10 - checksum % 10) % 10`), `validate_and_format_isbn` returns success
with the cleaned identifier unchanged. -/
theorem C2_valid13_unchanged (s : String)
    (h13 : (cleanIsbn s).data.length = 13)
    (hdig : ∀ c ∈ (cleanIsbn s).data, c.isDigit = true)
    (hchk : dval ((cleanIsbn s).data.getLast?.getD 'A')
      = (10 - weightedChecksum 0 (((cleanIsbn s).data.take 12).map dval) % 10) % 10) :
    validate_and_format_isbn s
      = Except.ok { valid := true, isbn13 := some (cleanIsbn s),
                    message := "ISBN-13이 유효합니다" } := by
  have hlen13 : (cleanIsbn s).length = 13 := h13
  have hne10 : ¬ (cleanIsbn s).length = 10 := by
    intro hh; rw [show (cleanIsbn s).length = (cleanIsbn s).data.length from rfl, h13] at hh
    exact absurd hh (by decide)
  have hdl : (cleanIsbn s).data.dropLast = (cleanIsbn s).data.take 12 := by
    rw [List.dropLast_eq_take, h13]
  have hsub : ∀ c ∈ (cleanIsbn s).data.take 12, c.isDigit = true :=
    fun c hc => hdig c (List.take_subset _ _ hc)
  have hnil : (cleanIsbn s).data ≠ [] := by
    intro h0; rw [h0] at h13; exact absurd h13 (by decide)
  have hlast : (cleanIsbn s).data.getLast? = some ((cleanIsbn s).data.getLast hnil) :=
    List.getLast?_eq_getLast _ hnil
  have hlastdig : ((cleanIsbn s).data.getLast hnil).isDigit = true :=
    hdig _ (List.getLast_mem hnil)
  rw [hlast] at hchk
  simp only [Option.getD_some] at hchk
  simp only [validate_and_format_isbn]
  rw [if_neg hne10, if_pos hlen13, hdl, checksum_digits _ 0 hsub, hlast]
  simp only [Option.getD_some, digitVal?_digit _ hlastdig, Option.some_bind,
    Option.map_some', Option.elim_some]
  rw [if_pos hchk.symm]

/-- C2 witness: the spec's own instance, hyphens stripped before the length
check, identifier returned unchanged. -/
theorem C2_witness :
    validate_and_format_isbn "978-89-364-3426-7"
      = Except.ok { valid := true, isbn13 := some "9788936434267",
                    message := "ISBN-13이 유효합니다" } := by
  have h := C2_valid13_unchanged "978-89-364-3426-7" (by decide) (by decide) (by decide)
  rw [h]; decide

/-! ## Claim C3 -/

/-- C3: for every cleaned input of length 10 consisting of decimal digits,
the normalizer prepends `"978"` to the first 9 characters (dropping the
10th), appends the check digit `(10 - checksum % 10) % 10` of the weighted
checksum (weight 1 at even 0-indexed positions, 3 at odd ones), and returns
that 13-character string with a success outcome. -/
theorem C3_isbn10_conversion (s : String)
    (h10 : (cleanIsbn s).data.length = 10)
    (hdig : ∀ c ∈ (cleanIsbn s).data, c.isDigit = true) :
    ∃ t : String,
      validate_and_format_isbn s
        = Except.ok { valid := true, isbn13 := some t,
                      message := "ISBN-10을 13자리로 변환: " ++ t } ∧
      t = ("978" ++ String.mk ((cleanIsbn s).data.take 9))
            ++ toString ((10 - weightedChecksum 0
              (('9' :: '7' :: '8' :: (cleanIsbn s).data.take 9).map dval) % 10) % 10) ∧
      t.data.length = 13 := by
  have hlen10 : (cleanIsbn s).length = 10 := h10
  have hdl : (cleanIsbn s).data.dropLast = (cleanIsbn s).data.take 9 := by
    rw [List.dropLast_eq_take, h10]
  have h12 : ("978" ++ String.mk ((cleanIsbn s).data.take 9)).data
      = '9' :: '7' :: '8' :: (cleanIsbn s).data.take 9 := by
    rw [sdata_append]; rfl
  have hsub : ∀ c ∈ '9' :: '7' :: '8' :: (cleanIsbn s).data.take 9, c.isDigit = true := by
    intro c hc
    rcases List.mem_cons.mp hc with rfl | hc
    · decide
    rcases List.mem_cons.mp hc with rfl | hc
    · decide
    rcases List.mem_cons.mp hc with rfl | hc
    · decide
    exact hdig c (List.take_subset _ _ hc)
  obtain ⟨hts, _⟩ := toString_digit
    ((10 - weightedChecksum 0
      (('9' :: '7' :: '8' :: (cleanIsbn s).data.take 9).map dval) % 10) % 10)
    (check_digit_lt _)
  refine ⟨_, ?_, rfl, ?_⟩
  · simp only [validate_and_format_isbn]
    rw [if_pos hlen10, hdl, h12, checksum_digits _ 0 hsub]
    simp only [Option.elim]
  · rw [sdata_append, h12, hts]
    simp [List.length_take, h10]

/-- C3 witness: the spec's instance `"8983711540"`, whose conversion is
`"9788983711540"` (prefix `"978898371154"`, computed check digit `0`). -/
theorem C3_witness :
    ∃ t : String,
      validate_and_format_isbn "8983711540"
        = Except.ok { valid := true, isbn13 := some t,
                      message := "ISBN-10을 13자리로 변환: " ++ t } ∧
      t = ("978" ++ String.mk ((cleanIsbn "8983711540").data.take 9))
            ++ toString ((10 - weightedChecksum 0
              (('9' :: '7' :: '8' :: (cleanIsbn "8983711540").data.take 9).map dval)
                % 10) % 10) ∧
      t.data.length = 13 :=
  C3_isbn10_conversion "8983711540" (by decide) (by decide)

/-! ## Claim C6 -/

/-- C6: take any valid 13-digit identifier (13 decimal digits whose last
digit equals the weighted-checksum check digit of the first 12) and replace
its last digit by a digit with a different value: `validate_and_format_isbn`
returns a failure whose message reports both the expected check digit (the
original last digit) and the actual corrupted digit. -/
theorem C6_corruption_reported (l : List Char) (c : Char)
    (h13 : l.length = 13)
    (hdig : ∀ x ∈ l, x.isDigit = true)
    (hchk : dval (l.getLast?.getD 'A')
      = (10 - weightedChecksum 0 ((l.take 12).map dval) % 10) % 10)
    (hc : c.isDigit = true)
    (hne : dval c ≠ dval (l.getLast?.getD 'A')) :
    validate_and_format_isbn (String.mk (l.take 12 ++ [c]))
      = Except.ok { valid := false, isbn13 := none,
                    message := checksumErrMsg (dval (l.getLast?.getD 'A')) (dval c) } := by
  have hlen12 : (l.take 12).length = 12 := by
    rw [List.length_take, h13]; omega
  have hdigm : ∀ x ∈ l.take 12 ++ [c], x.isDigit = true := by
    intro x hx
    rcases List.mem_append.mp hx with hx | hx
    · exact hdig x (List.take_subset _ _ hx)
    · simp only [List.mem_singleton] at hx; subst hx; exact hc
  have hclean : (cleanIsbn (String.mk (l.take 12 ++ [c]))).data = l.take 12 ++ [c] :=
    cleanIsbn_digits _ hdigm
  have hlen : (cleanIsbn (String.mk (l.take 12 ++ [c]))).length = 13 := by
    show (cleanIsbn (String.mk (l.take 12 ++ [c]))).data.length = 13
    rw [hclean]; simp [hlen12]
  have hne10 : ¬ (cleanIsbn (String.mk (l.take 12 ++ [c]))).length = 10 := by
    rw [hlen]; decide
  have hsub : ∀ x ∈ l.take 12, x.isDigit = true :=
    fun x hx => hdig x (List.take_subset _ _ hx)
  simp only [validate_and_format_isbn]
  rw [if_neg hne10, if_pos hlen, hclean, List.dropLast_concat, List.getLast?_concat,
    checksum_digits _ 0 hsub]
  simp only [Option.getD_some, digitVal?_digit _ hc, Option.some_bind, Option.map_some',
    Option.elim_some]
  rw [if_neg (by rw [← hchk]; exact fun hh => hne hh.symm), ← hchk]

/-! ## Lemmas about the author cleanup -/

/-- Rebuilding a string from its own characters. -/
theorem mk_data (s : String) : String.mk s.data = s := by cases s; rfl

/-- The head of a `dropWhile` result never satisfies the predicate. -/
theorem dropWhile_cons_not {α : Type} (p : α → Bool) (l : List α) (c : α) (cs : List α)
    (h : l.dropWhile p = c :: cs) : p c = false := by
  have hh := List.head?_dropWhile_not p l
  rw [h] at hh
  exact hh

/-- `str.strip(' ,;')` is idempotent. -/
theorem stripChars_idem (l : List Char) : stripChars (stripChars l) = stripChars l := by
  have hdw : (List.rdropWhile stripSet (l.dropWhile stripSet)).dropWhile stripSet
      = List.rdropWhile stripSet (l.dropWhile stripSet) := by
    cases hmm : List.rdropWhile stripSet (l.dropWhile stripSet) with
    | nil => rfl
    | cons c cs =>
        obtain ⟨t, ht⟩ := List.rdropWhile_prefix stripSet (l.dropWhile stripSet)
        rw [hmm] at ht
        have hc : stripSet c = false :=
          dropWhile_cons_not stripSet l c (cs ++ t) (by rw [← ht]; rfl)
        rw [List.dropWhile_cons, hc]
        simp
  calc stripChars (stripChars l)
      = List.rdropWhile stripSet
          ((List.rdropWhile stripSet (l.dropWhile stripSet)).dropWhile stripSet) := rfl
    _ = List.rdropWhile stripSet (List.rdropWhile stripSet (l.dropWhile stripSet)) := by
          rw [hdw]
    _ = List.rdropWhile stripSet (l.dropWhile stripSet) := List.rdropWhile_idempotent _ _
    _ = stripChars l := rfl

/-- A token that occurs nowhere in `l` is in particular not a prefix of `l`. -/
theorem containsTok_isPrefixOf_false (t l : List Char) (h : containsTok t l = false) :
    t.isPrefixOf l = false := by
  cases l with
  | nil =>
      cases t with
      | nil => simp [containsTok] at h
      | cons a as => rfl
  | cons c cs =>
      simp only [containsTok, Bool.or_eq_false_iff] at h
      exact h.1

/-- A token that occurs nowhere in `c :: cs` occurs nowhere in `cs`. -/
theorem containsTok_tail (t : List Char) (c : Char) (cs : List Char)
    (h : containsTok t (c :: cs) = false) : containsTok t cs = false := by
  simp only [containsTok, Bool.or_eq_false_iff] at h
  exact h.2

/-- Occurrence is preserved downward by `dropWhile` (a suffix of the list). -/
theorem containsTok_dropWhile (t : List Char) (p : Char → Bool) :
    ∀ l : List Char, containsTok t l = false → containsTok t (l.dropWhile p) = false := by
  intro l
  induction l with
  | nil => intro h; exact h
  | cons c cs ih =>
      intro h
      rw [List.dropWhile_cons]
      by_cases hc : p c
      · simp only [hc, if_true]
        exact ih (containsTok_tail t c cs h)
      · simp only [hc, Bool.false_eq_true, if_false]
        exact h

/-- The alternation fails when no token is a prefix. -/
theorem tryTokens_eq_none (ts : List (List Char)) (l : List Char)
    (h : ∀ t ∈ ts, t.isPrefixOf l = false) : tryTokens ts l = none := by
  induction ts with
  | nil => rfl
  | cons t ts ih =>
      simp only [tryTokens, h t (List.mem_cons_self t ts), Bool.false_eq_true, if_false]
      exact ih fun t2 ht2 => h t2 (List.mem_cons_of_mem t ht2)

/-- The bracket pass is the identity on a string with no `[` at all. -/
theorem subBracketAux_id (fuel : Nat) :
    ∀ l : List Char, '[' ∉ l → l.length ≤ fuel → subBracketAux fuel l = l := by
  induction fuel with
  | zero =>
      intro l _ hlen
      have h0 : l = [] := List.eq_nil_of_length_eq_zero (Nat.le_zero.mp hlen)
      subst h0; rfl
  | succ fuel ih =>
      intro l hb hlen
      cases l with
      | nil => rfl
      | cons c cs =>
          have hsub : ∀ x ∈ (c :: cs).dropWhile pyWs, x ∈ c :: cs :=
            fun x hx => (List.dropWhile_sublist pyWs).subset hx
          have hcs : '[' ∉ cs := fun hx => hb (List.mem_cons_of_mem c hx)
          have hl : cs.length ≤ fuel := by
            simp only [List.length_cons] at hlen; omega
          simp only [subBracketAux]
          split
          · rename_i after heq
            exact absurd (hsub '[' (heq ▸ List.mem_cons_self '[' after)) hb
          · rw [ih cs hcs hl]

/-- See `subBracketAux_id`. -/
theorem subBracket_id (l : List Char) (h : '[' ∉ l) : subBracket l = l :=
  subBracketAux_id l.length l h (Nat.le_refl _)

/-- The role pass is the identity on a string in which no role token occurs
as a substring. -/
theorem subRoleAux_id (fuel : Nat) :
    ∀ l : List Char, (∀ t ∈ roleTokens, containsTok t l = false) →
      l.length ≤ fuel → subRoleAux fuel l = l := by
  induction fuel with
  | zero =>
      intro l _ hlen
      have h0 : l = [] := List.eq_nil_of_length_eq_zero (Nat.le_zero.mp hlen)
      subst h0; rfl
  | succ fuel ih =>
      intro l ht hlen
      cases l with
      | nil => rfl
      | cons c cs =>
          have hnone : tryTokens roleTokens ((c :: cs).dropWhile pyWs) = none :=
            tryTokens_eq_none _ _ fun t htok =>
              containsTok_isPrefixOf_false t _
                (containsTok_dropWhile t pyWs (c :: cs) (ht t htok))
          have hts : ∀ t ∈ roleTokens, containsTok t cs = false :=
            fun t htok => containsTok_tail t c cs (ht t htok)
          have hl : cs.length ≤ fuel := by
            simp only [List.length_cons] at hlen; omega
          simp only [subRoleAux, hnone]
          rw [ih cs hts hl]

/-- See `subRoleAux_id`. -/
theorem subRole_id (l : List Char) (h : ∀ t ∈ roleTokens, containsTok t l = false) :
    subRole l = l :=
  subRoleAux_id l.length l h (Nat.le_refl _)

/-! ## Claim C4 -/

/-- C4 counterexample: `clean_author_name` is not idempotent.  On
`"지은저이"` the role pass removes the inner `저` and the glued remainder
`지은이` is itself a role token, so a second application erases it:
`clean("지은저이") = "지은이"` but `clean("지은이") = ""`. -/
theorem C4_counterexample :
    clean_author_name "지은저이" = "지은이" ∧
      clean_author_name (clean_author_name "지은저이") ≠ clean_author_name "지은저이" :=
  ⟨by decide, by decide⟩

/-- C4 (amended): `clean_author_name` is idempotent on every input whose
cleaned result contains no bracket character and no role token as a
substring (removing a role token can otherwise create a new token or a new
bracket pair, breaking idempotence); in particular the spec's instance
`"김영하 ; 박상영, 옮긴이"` cleans to `"김영하 ; 박상영"` and is a fixed
point of a second application. -/
theorem C4_amended (s : String)
    (hb : '[' ∉ (clean_author_name s).data)
    (ht : ∀ t ∈ roleTokens, containsTok t (clean_author_name s).data = false) :
    clean_author_name (clean_author_name s) = clean_author_name s := by
  by_cases hs : s = ""
  · subst hs; rfl
  · by_cases hcs : clean_author_name s = ""
    · rw [hcs]; rfl
    · have hdata : (clean_author_name s).data = stripChars (subRole (subBracket s.data)) := by
        simp only [clean_author_name, if_neg hs]
      conv_lhs => rw [clean_author_name]
      rw [if_neg hcs, subBracket_id _ hb, subRole_id _ ht, hdata, stripChars_idem,
        ← hdata, mk_data]

/-- C4 witness: the spec's instance, role word removed and separators
preserved, and a fixed point of `clean_author_name`. -/
theorem C4_witness :
    clean_author_name "김영하 ; 박상영, 옮긴이" = "김영하 ; 박상영" ∧
      clean_author_name (clean_author_name "김영하 ; 박상영, 옮긴이")
        = clean_author_name "김영하 ; 박상영, 옮긴이" :=
  ⟨by decide, C4_amended "김영하 ; 박상영, 옮긴이" (by decide) (by decide)⟩

/-! ## Claim C5 -/

/-- C5 counterexample: the role regex has no word-boundary anchors, so a role
word is removed even as a proper substring of a longer word: `"저자"`
(author-as-a-word, containing the role token `저`) has nothing to trim, yet
`clean_author_name` returns `"자"`, not `"저자"`. -/
theorem C5_counterexample :
    clean_author_name "저자" = "자" ∧
      stripChars "저자".data = "저자".data ∧
      clean_author_name "저자" ≠ "저자" :=
  ⟨by decide, by decide, by decide⟩

/-- C5 (amended): the role pass removes tokens wherever they occur as
contiguous substrings, with no isolated-word requirement; accordingly, for
every input with no bracket character in which no role token occurs as a
substring at all, `clean_author_name` returns the input unchanged except for
the final trim of leading/trailing spaces, commas and semicolons. -/
theorem C5_amended (s : String)
    (hb : '[' ∉ s.data)
    (ht : ∀ t ∈ roleTokens, containsTok t s.data = false) :
    clean_author_name s = String.mk (stripChars s.data) := by
  by_cases hs : s = ""
  · subst hs; rfl
  · simp only [clean_author_name, if_neg hs, subBracket_id _ hb, subRole_id _ ht]

/-- C5 witness: `"홍길동, "` has no brackets and no role token; the cleanup
only trims, returning `"홍길동"`. -/
theorem C5_witness :
    clean_author_name "홍길동, " = String.mk (stripChars "홍길동, ".data) ∧
      clean_author_name "홍길동, " = "홍길동" :=
  ⟨C5_amended "홍길동, " (by decide) (by decide), by decide⟩

/-- C6 witness: corrupting the valid identifier `"9788936434267"` to
`"9788936434268"` is rejected with expected digit 7 and actual digit 8. -/
theorem C6_witness :
    validate_and_format_isbn (String.mk ("9788936434267".data.take 12 ++ ['8']))
      = Except.ok { valid := false, isbn13 := none,
                    message := checksumErrMsg (dval ("9788936434267".data.getLast?.getD 'A'))
                      (dval '8') } :=
  C6_corruption_reported "9788936434267".data '8' (by decide) (by decide) (by decide)
    (by decide) (by decide)

/-! ## Lemmas about the file-system model -/

/-- Reading a key just written yields the written content. -/
theorem fsRead_write_self (fs : FS) (k : String) (v : Bytes) :
    fsRead (fsWrite fs k v) k = some v := by
  simp [fsWrite, fsRead]

/-- A removed key reads as absent. -/
theorem fsRead_remove_self (fs : FS) (k : String) : fsRead (fsRemove fs k) k = none := by
  induction fs with
  | nil => rfl
  | cons p rest ih =>
      obtain ⟨k2, v⟩ := p
      by_cases h : k2 = k
      · simp [fsRemove, h, ih]
      · simp [fsRemove, fsRead, h, ih]

/-- Removing one key does not change the others. -/
theorem fsRead_remove_other (fs : FS) (k k2 : String) (h : k2 ≠ k) :
    fsRead (fsRemove fs k) k2 = fsRead fs k2 := by
  induction fs with
  | nil => rfl
  | cons p rest ih =>
      obtain ⟨k3, v⟩ := p
      by_cases h3 : k3 = k
      · have e1 : fsRemove ((k3, v) :: rest) k = fsRemove rest k := by
          simp [fsRemove, h3]
        have e2 : fsRead ((k3, v) :: rest) k2 = fsRead rest k2 := by
          rw [show fsRead ((k3, v) :: rest) k2
              = if k3 = k2 then some v else fsRead rest k2 from rfl,
            if_neg fun hh : k3 = k2 => h (hh ▸ h3)]
        rw [e1, ih, e2]
      · have e1 : fsRemove ((k3, v) :: rest) k = (k3, v) :: fsRemove rest k := by
          simp [fsRemove, h3]
        rw [e1]
        show (if k3 = k2 then some v else fsRead (fsRemove rest k) k2)
          = if k3 = k2 then some v else fsRead rest k2
        by_cases h32 : k3 = k2
        · rw [if_pos h32, if_pos h32]
        · rw [if_neg h32, if_neg h32, ih]

/-- Writing one key does not change the others. -/
theorem fsRead_write_other (fs : FS) (k k2 : String) (v : Bytes) (h : k2 ≠ k) :
    fsRead (fsWrite fs k v) k2 = fsRead fs k2 := by
  simp only [fsWrite, fsRead]
  rw [if_neg fun hh => h hh.symm]
  exact fsRead_remove_other fs k k2 h

/-- String concatenation adds lengths. -/
theorem append_len (a b : String) : (a ++ b).length = a.length + b.length := by
  rw [show (a ++ b).length = (a ++ b).data.length from rfl, sdata_append,
    List.length_append]
  rfl

/-- The timestamped backup name is at least 30 characters long. -/
theorem backup_name_long (ts : String) :
    30 ≤ ("reading_log_before_restore_" ++ ts ++ ".db").length := by
  rw [append_len, append_len]
  have h1 : ("reading_log_before_restore_" : String).length = 27 := by decide
  have h2 : (".db" : String).length = 3 := by decide
  omega

/-- The timestamped backup name never collides with a short fixed name. -/
theorem backup_name_ne (ts k : String) (hk : k.length < 30) :
    ("reading_log_before_restore_" ++ ts ++ ".db") ≠ k := by
  intro h
  have hlong := backup_name_long ts
  rw [h] at hlong
  omega

/-! ## Claim C8 -/

/-- C8: with a live store present, a restore from an upload whose table list
lacks `books` fails, leaves the live `reading_log.db` byte-for-byte
unchanged, removes the temporary `reading_log_temp.db`, and has still saved
the pre-restore copy of the old store; and when the `books` table is present
the replacement succeeds with the old store preserved under the timestamped
copy name rather than deleted. -/
theorem C8_restore_integrity (tablesOf : Bytes → List String) (ts : String)
    (upload : Bytes) (fs : FS) (live : Bytes)
    (hlive : fsRead fs "reading_log.db" = some live) :
    ((tablesOf upload).contains "books" = false →
      (restore_from_backup tablesOf ts upload fs).1 = false ∧
      fsRead (restore_from_backup tablesOf ts upload fs).2 "reading_log.db" = some live ∧
      fsRead (restore_from_backup tablesOf ts upload fs).2 "reading_log_temp.db" = none ∧
      fsRead (restore_from_backup tablesOf ts upload fs).2
        ("reading_log_before_restore_" ++ ts ++ ".db") = some live) ∧
    ((tablesOf upload).contains "books" = true →
      (restore_from_backup tablesOf ts upload fs).1 = true ∧
      fsRead (restore_from_backup tablesOf ts upload fs).2 "reading_log.db" = some upload ∧
      fsRead (restore_from_backup tablesOf ts upload fs).2 "reading_log_temp.db" = none ∧
      fsRead (restore_from_backup tablesOf ts upload fs).2
        ("reading_log_before_restore_" ++ ts ++ ".db") = some live) := by
  have hb_live : ("reading_log_before_restore_" ++ ts ++ ".db") ≠ "reading_log.db" :=
    backup_name_ne ts _ (by decide)
  have hb_temp : ("reading_log_before_restore_" ++ ts ++ ".db") ≠ "reading_log_temp.db" :=
    backup_name_ne ts _ (by decide)
  have htl : ("reading_log_temp.db" : String) ≠ "reading_log.db" := by decide
  have hlt : ("reading_log.db" : String) ≠ "reading_log_temp.db" := by decide
  constructor
  · intro hnob
    simp only [restore_from_backup, hlive, Option.elim_some, hnob, Bool.false_eq_true,
      if_false]
    refine ⟨trivial, ?_, ?_, ?_⟩
    · rw [fsRead_remove_other _ _ _ hlt, fsRead_write_other _ _ _ _ hlt,
        fsRead_write_other _ _ _ _ hb_live.symm]
      exact hlive
    · exact fsRead_remove_self _ _
    · rw [fsRead_remove_other _ _ _ hb_temp, fsRead_write_other _ _ _ _ hb_temp,
        fsRead_write_self]
  · intro hyes
    simp only [restore_from_backup, hlive, Option.elim_some, hyes, if_true]
    have hrd : fsRead (fsRemove (fsWrite (fsWrite fs
          ("reading_log_before_restore_" ++ ts ++ ".db") live)
          "reading_log_temp.db" upload) "reading_log.db") "reading_log_temp.db"
        = some upload := by
      rw [fsRead_remove_other _ _ _ htl, fsRead_write_self]
    simp only [fsRename, hrd, Option.elim_some]
    refine ⟨trivial, ?_, ?_, ?_⟩
    · rw [fsRead_write_self]
    · rw [fsRead_write_other _ _ _ _ htl, fsRead_remove_self]
    · rw [fsRead_write_other _ _ _ _ hb_live, fsRead_remove_other _ _ _ hb_temp,
        fsRead_remove_other _ _ _ hb_live, fsRead_write_other _ _ _ _ hb_temp,
        fsRead_write_self]

/-- C8 witness: a one-file directory, an upload reported to hold only a
`notes` table: the restore fails, the live store and the pre-restore copy
hold the old bytes, the temp file is gone. -/
theorem C8_witness :
    ((((fun _ => ["notes"]) : Bytes → List String) [7]).contains "books" = false →
      (restore_from_backup (fun _ => ["notes"]) "20250101" [7]
        [("reading_log.db", [1, 2])]).1 = false ∧
      fsRead (restore_from_backup (fun _ => ["notes"]) "20250101" [7]
        [("reading_log.db", [1, 2])]).2 "reading_log.db" = some [1, 2] ∧
      fsRead (restore_from_backup (fun _ => ["notes"]) "20250101" [7]
        [("reading_log.db", [1, 2])]).2 "reading_log_temp.db" = none ∧
      fsRead (restore_from_backup (fun _ => ["notes"]) "20250101" [7]
        [("reading_log.db", [1, 2])]).2
        ("reading_log_before_restore_" ++ "20250101" ++ ".db") = some [1, 2]) ∧
    ((((fun _ => ["notes"]) : Bytes → List String) [7]).contains "books" = true →
      (restore_from_backup (fun _ => ["notes"]) "20250101" [7]
        [("reading_log.db", [1, 2])]).1 = true ∧
      fsRead (restore_from_backup (fun _ => ["notes"]) "20250101" [7]
        [("reading_log.db", [1, 2])]).2 "reading_log.db" = some [7] ∧
      fsRead (restore_from_backup (fun _ => ["notes"]) "20250101" [7]
        [("reading_log.db", [1, 2])]).2 "reading_log_temp.db" = none ∧
      fsRead (restore_from_backup (fun _ => ["notes"]) "20250101" [7]
        [("reading_log.db", [1, 2])]).2
        ("reading_log_before_restore_" ++ "20250101" ++ ".db") = some [1, 2]) :=
  C8_restore_integrity (fun _ => ["notes"]) "20250101" [7]
    [("reading_log.db", [1, 2])] [1, 2] rfl

/-! ## Claim C9 -/

/-- C9: aggregation over an empty or fully filtered-out collection never
errors and yields zeros: the monthly summary of an empty collection is
all-zero with no top tags and no books; the report generator on an empty
collection returns the no-records report text for every period filter; and
on a nonempty collection whose records are all outside the filtered month it
likewise returns the no-records report text. -/
theorem C9_empty_aggregation :
    (∀ year month : Nat,
      generate_monthly_summary [] year month
        = { year := year, month := month, total_added := 0, completed := 0,
            pages_read := 0, avg_rating := 0, top_tags := [], books := [] }) ∧
    (∀ (period : String) (year month : Option Nat) (now_str : String),
      generate_reading_report [] period year month now_str
        = "# 📚 " ++ reportPeriodText period year month
            ++ " 독서 보고서\n\n해당 기간에 기록된 책이 없습니다.") ∧
    (∀ (df : List BookRow) (year month : Nat) (now_str : String),
      year ≠ 0 → month ≠ 0 →
      (∀ b ∈ df, inPeriod year month b.added_date = false) →
      generate_reading_report df "month" (some year) (some month) now_str
        = "# 📚 " ++ reportPeriodText "month" (some year) (some month)
            ++ " 독서 보고서\n\n해당 기간에 기록된 책이 없습니다.") := by
  refine ⟨fun y m => rfl, fun p y m now => ?_, fun df y m now hy hm hall => ?_⟩
  · simp only [generate_reading_report, reportPeriodText]
    split <;> rfl
  · have hcond : True ∧ y ≠ 0 ∧ m ≠ 0 := ⟨trivial, hy, hm⟩
    have hfil : df.filter (fun b => inPeriod y m b.added_date) = [] :=
      List.filter_eq_nil_iff.mpr fun b hb => by rw [hall b hb]; exact Bool.false_ne_true
    simp only [generate_reading_report, Option.getD_some]
    rw [if_pos hcond, hfil]
    rfl

/-- A record created outside January 2025 (December 2024), for the
filtered-out report witness. -/
def offMonthRow : BookRow :=
  { id := 2, isbn := "", title := "채식주의자", author := "한강",
    publisher := "창비", publication_year := "2007", subject := "문학",
    loan_count := 0, cover_url := "", rating := 4, status := "읽음", memo := "",
    tags := "소설", pages := 247, added_date := "2024-12-01 10:00",
    updated_date := "2024-12-01 10:00", wiki_links := none, last_wiki_search := none }

/-- C9 witness: a nonempty collection (one record created 2024-12-01) whose
records all fall outside the January 2025 filter: the report degenerates to
the no-records text instead of raising. -/
theorem C9_witness :
    generate_reading_report [offMonthRow] "month" (some 2025) (some 1) ""
      = "# 📚 " ++ reportPeriodText "month" (some 2025) (some 1)
          ++ " 독서 보고서\n\n해당 기간에 기록된 책이 없습니다." :=
  C9_empty_aggregation.2.2 [offMonthRow] 2025 1 "" (by decide) (by decide) (by decide)

/-! ## Claim C7 -/

/-- A record created on 2025-01-31 at 20:00 (the creation format of the code
is `"%Y-%m-%d %H:%M"`, line 1183). -/
def day31Row : BookRow :=
  { id := 1, isbn := "9788936434267", title := "소년이 온다", author := "한강",
    publisher := "창비", publication_year := "2014", subject := "문학",
    loan_count := 0, cover_url := "", rating := 5, status := "읽음", memo := "",
    tags := "소설", pages := 216, added_date := "2025-01-31 20:00",
    updated_date := "2025-01-31 20:00", wiki_links := none, last_wiki_search := none }

/-- C7 (bug evidence): the period filter compares `added_date` strings
against `f"{year}-{month:02d}-31"`, but creation stamps carry a time
component, so a record created on day 31 of its own month sorts above the
end bound and is dropped: with the January 2025 filter, `day31Row` (created
2025-01-31 20:00) is excluded from the monthly summary and from the report,
which degenerates to the no-records text, while a mid-month stamp is
included.  The claim that the filter selects exactly the records created in
the calendar month fails on the code. -/
theorem C7_day31_excluded :
    inPeriod 2025 1 day31Row.added_date = false ∧
      (generate_monthly_summary [day31Row] 2025 1).total_added = 0 ∧
      (generate_monthly_summary [day31Row] 2025 1).completed = 0 ∧
      generate_reading_report [day31Row] "month" (some 2025) (some 1) ""
        = "# 📚 2025년 1월 독서 보고서\n\n해당 기간에 기록된 책이 없습니다." ∧
      inPeriod 2025 1 "2025-01-15 09:00" = true :=
  ⟨by decide, by decide, by decide, by decide, by decide⟩

/-! ## Claim C10 -/

/-- C10: a freshly inserted book row receives its `added_date` value in both
timestamp columns, so `updated_date = added_date` on creation. -/
theorem C10_fresh_row_timestamps (bd : BookData) (newId : Nat) :
    (add_book_to_db bd newId).updated_date = (add_book_to_db bd newId).added_date ∧
      (add_book_to_db bd newId).added_date = bd.added_date :=
  ⟨rfl, rfl⟩

end ReadingLog
